import Mathlib

/-!
Verification of the second-hand physics core of the `AnalogueClock` class
(src/clock.js).  The state machine, the frame throttle, the angle
calculator and the start() seeding are embedded as pure Lean functions
over the rationals; the rendering collaborators are out of scope.
-/

namespace Clock

/-- Animation phase of the second hand, the values written into
`secondHandAnimationPhase` (clock.js line 78). -/
inductive Phase
  | SETTLED
  | CREEPING
  | OVERSHOOT
  | RECOIL
deriving DecidableEq, Repr

/-- A wall-clock reading sampled once per frame from `new Date()`
(clock.js lines 194-198). -/
structure ClockReading where
  hours : ℕ
  minutes : ℕ
  seconds : ℕ
  milliseconds : ℕ
deriving DecidableEq, Repr

/-- The numeric `secondHandPhysics` configuration block
(clock.js lines 48-54); `motionBlurStrength` only feeds the excluded
renderer and is omitted. -/
structure PhysicsConfig where
  creepDurationMs : ℚ
  creepAngleDegrees : ℚ
  overshootDegrees : ℚ
  recoilDegrees : ℚ
deriving DecidableEq, Repr

/-- The default `secondHandPhysics` values (clock.js lines 48-54). -/
def defaultSecondHandPhysics : PhysicsConfig :=
  { creepDurationMs := 150
    creepAngleDegrees := 2
    overshootDegrees := 2
    recoilDegrees := -(3 / 2) }

/-- A user-supplied override for the numeric physics block: each field is
either absent or a value. -/
structure UserPhysics where
  creepDurationMs : Option ℚ
  creepAngleDegrees : Option ℚ
  overshootDegrees : Option ℚ
  recoilDegrees : Option ℚ

/-- `_deepMerge(AnalogueClock.defaultConfig, userConfig)` (clock.js lines
71 and 93-109) restricted to the numeric `secondHandPhysics` leaves: a key
present in the user object overrides the default unconditionally; the
constructor performs no validation of the merged values. -/
def mergedPhysics (user : UserPhysics) : PhysicsConfig :=
  { creepDurationMs := user.creepDurationMs.getD defaultSecondHandPhysics.creepDurationMs
    creepAngleDegrees := user.creepAngleDegrees.getD defaultSecondHandPhysics.creepAngleDegrees
    overshootDegrees := user.overshootDegrees.getD defaultSecondHandPhysics.overshootDegrees
    recoilDegrees := user.recoilDegrees.getD defaultSecondHandPhysics.recoilDegrees }

/-- The per-instance mutable fields of the second-hand physics
(clock.js lines 77-81).  `lastSystemSecond` is an integer because the
constructor seeds it with -1 (line 77). -/
structure AnimationState where
  phase : Phase
  lastSystemSecond : ℤ
  targetSecondBaseAngle : ℚ
  currentSecondHandVisualAngle : ℚ
  blurSecondHandEffect : ℤ
deriving DecidableEq, Repr

/-- The CREEPING arm of the switch (clock.js lines 244-266), shared by the
fall-through from the SETTLED arm.  Expects `blurSecondHandEffect` already
reset to 0, as line 206 does before the switch. -/
def creepArm (cfg : PhysicsConfig) (st : AnimationState) (r : ClockReading) :
    AnimationState :=
  let msUntilNextTick : ℚ := 1000 - (r.milliseconds : ℚ)
  if cfg.creepDurationMs < msUntilNextTick ∨ msUntilNextTick < 0 then
    { st with
      phase := Phase.SETTLED
      currentSecondHandVisualAngle := st.targetSecondBaseAngle }
  else
    let timeIntoCreepMs := cfg.creepDurationMs - msUntilNextTick
    let creepProgress := max 0 (min 1 (timeIntoCreepMs / cfg.creepDurationMs))
    { st with
      currentSecondHandVisualAngle :=
        st.targetSecondBaseAngle + creepProgress * cfg.creepAngleDegrees }

/-- One pass of the second-hand physics logic inside `_animationLoop`
(clock.js lines 204-273) for an accepted time reading.
`blurSecondHandEffect` is first reset to 0 (line 206) and then overwritten
by the branches that assign it.  The `default` arm of the JS switch is
unreachable here because `Phase` has exactly the four values the source
ever stores in `secondHandAnimationPhase`. -/
def step (cfg : PhysicsConfig) (st : AnimationState) (r : ClockReading) :
    AnimationState :=
  if (r.seconds : ℤ) ≠ st.lastSystemSecond then
    { phase := Phase.OVERSHOOT
      lastSystemSecond := (r.seconds : ℤ)
      targetSecondBaseAngle := (r.seconds : ℚ) / 60 * 360
      currentSecondHandVisualAngle :=
        (r.seconds : ℚ) / 60 * 360 + cfg.overshootDegrees
      blurSecondHandEffect := -1 }
  else
    match st.phase with
    | Phase.OVERSHOOT =>
        { st with
          phase := Phase.RECOIL
          currentSecondHandVisualAngle :=
            st.targetSecondBaseAngle + cfg.recoilDegrees
          blurSecondHandEffect := 1 }
    | Phase.RECOIL =>
        { st with
          phase := Phase.SETTLED
          currentSecondHandVisualAngle := st.targetSecondBaseAngle
          blurSecondHandEffect := -1 }
    | Phase.SETTLED =>
        let millisecondsUntilNextTick : ℚ := 1000 - (r.milliseconds : ℚ)
        if millisecondsUntilNextTick ≤ cfg.creepDurationMs ∧
            0 < millisecondsUntilNextTick then
          creepArm cfg { st with phase := Phase.CREEPING, blurSecondHandEffect := 0 } r
        else
          { st with
            currentSecondHandVisualAngle := st.targetSecondBaseAngle
            blurSecondHandEffect := 0 }
    | Phase.CREEPING =>
        creepArm cfg { st with blurSecondHandEffect := 0 } r

/-- The animation-state fields assigned by `start()` (clock.js lines
138-144), as a function of the wall-clock second observed at start time. -/
def startState (currentSecond : ℕ) : AnimationState :=
  { phase := Phase.SETTLED
    lastSystemSecond := ((currentSecond + 59) % 60 : ℕ)
    targetSecondBaseAngle := (currentSecond : ℚ) / 60 * 360
    currentSecondHandVisualAngle := (currentSecond : ℚ) / 60 * 360
    blurSecondHandEffect := 0 }

/-- Iterated stepping: the animation state after processing a list of
accepted frame readings in order. -/
def run (cfg : PhysicsConfig) (st : AnimationState) (rs : List ClockReading) :
    AnimationState :=
  rs.foldl (step cfg) st

/-- Smooth hour-hand angle (clock.js line 201). -/
def hourAngle (hours minutes : ℕ) : ℚ :=
  (((hours % 12 : ℕ) : ℚ) + (minutes : ℚ) / 60) / 12 * 360

/-- Smooth minute-hand angle (clock.js line 202). -/
def minuteAngle (minutes seconds : ℕ) : ℚ :=
  ((minutes : ℚ) + (seconds : ℚ) / 60) / 60 * 360

/-- Snapped base angle of a whole second (clock.js lines 141 and 210). -/
def secondBaseAngle (seconds : ℕ) : ℚ :=
  (seconds : ℚ) / 60 * 360

/-- Modelled from the spec: the minute-hand formula exactly as the
specification prints it, `(minutes + seconds/60) / 60 * 6 * 10`, kept
separate so it can be compared against `minuteAngle`, the formula the
source computes. -/
def minuteAngleSpecFormula (minutes seconds : ℕ) : ℚ :=
  ((minutes : ℚ) + (seconds : ℚ) / 60) / 60 * 6 * 10

/-- The hard-coded throttle rate of the animation loop
(clock.js line 183). -/
def maxRefreshRateHz : ℚ := 50

/-- The state touched by one invocation of `_animationLoop` while running:
the physics state plus the timestamp of the last processed frame
(clock.js lines 82 and 192). -/
structure LoopState where
  anim : AnimationState
  lastTimestamp : ℚ
deriving DecidableEq, Repr

/-- One invocation of `_animationLoop` (clock.js lines 178-283) while the
clock is running, as a function of the callback timestamp and the wall
clock reading: a callback arriving sooner than `1000 / maxRefreshRateHz`
milliseconds after the last processed frame only re-requests the next
callback and leaves every field untouched (lines 181-187); otherwise the
timestamp is recorded and the physics step runs. -/
def animationLoop (cfg : PhysicsConfig) (s : LoopState) (timestamp : ℚ)
    (r : ClockReading) : LoopState :=
  if timestamp - s.lastTimestamp < 1000 / maxRefreshRateHz then s
  else { anim := step cfg s.anim r, lastTimestamp := timestamp }

/-- The control-flow condition under which one pass of the switch reaches
the division `timeIntoCreepMs / creepDurationMs` (clock.js line 258): no
tick, the CREEPING arm is entered (directly, or by fall-through from
SETTLED under the entry test of lines 232-236), and the window re-check of
lines 247-250 does not bail out. -/
def creepDivisionReached (cfg : PhysicsConfig) (st : AnimationState)
    (r : ClockReading) : Prop :=
  (r.seconds : ℤ) = st.lastSystemSecond ∧
  (st.phase = Phase.CREEPING ∨
    (st.phase = Phase.SETTLED ∧ 0 < 1000 - (r.milliseconds : ℚ) ∧
      1000 - (r.milliseconds : ℚ) ≤ cfg.creepDurationMs)) ∧
  ¬ (cfg.creepDurationMs < 1000 - (r.milliseconds : ℚ) ∨
      1000 - (r.milliseconds : ℚ) < 0)

/-- The bounded-excursion envelope: the visual angle stays between the
base angle shifted down by `min 0 recoilDegrees` and up by
`max creepAngleDegrees overshootDegrees`. -/
def inRange (cfg : PhysicsConfig) (st : AnimationState) : Prop :=
  st.targetSecondBaseAngle + min 0 cfg.recoilDegrees ≤
    st.currentSecondHandVisualAngle ∧
  st.currentSecondHandVisualAngle ≤
    st.targetSecondBaseAngle + max cfg.creepAngleDegrees cfg.overshootDegrees

/-- A state settled on second 14 (base angle 84), used by the concrete
tick scenario of the spec. -/
def settledAt14 : AnimationState :=
  { phase := Phase.SETTLED
    lastSystemSecond := 14
    targetSecondBaseAngle := 84
    currentSecondHandVisualAngle := 84
    blurSecondHandEffect := 0 }

/-- A state settled on second 20 (base angle 120), used by the concrete
creep scenario of the spec. -/
def settledAt20 : AnimationState :=
  { phase := Phase.SETTLED
    lastSystemSecond := 20
    targetSecondBaseAngle := 120
    currentSecondHandVisualAngle := 120
    blurSecondHandEffect := 0 }

/-- A state in OVERSHOOT just after the tick to second 15 (base angle 90,
visual angle 92 with the default physics). -/
def overshootAt15 : AnimationState :=
  { phase := Phase.OVERSHOOT
    lastSystemSecond := 15
    targetSecondBaseAngle := 90
    currentSecondHandVisualAngle := 92
    blurSecondHandEffect := -1 }

/-- A state mid-creep toward second 11 from second 10 (base angle 60). -/
def creepingAt10 : AnimationState :=
  { phase := Phase.CREEPING
    lastSystemSecond := 10
    targetSecondBaseAngle := 60
    currentSecondHandVisualAngle := 61
    blurSecondHandEffect := 0 }

/-- The physics configuration obtained by constructing the clock with a
user override `secondHandPhysics.creepDurationMs = 0`. -/
def zeroCreepPhysics : PhysicsConfig :=
  mergedPhysics
    { creepDurationMs := some 0
      creepAngleDegrees := none
      overshootDegrees := none
      recoilDegrees := none }

/-- A loop state whose last processed frame had timestamp 1000. -/
def exLoopState : LoopState :=
  { anim := settledAt20, lastTimestamp := 1000 }

/-- A physics configuration with sign choices the spec data model admits
(overshootDegrees of any sign, recoilDegrees of any sign) but outside the
conventional ones: a negative overshoot and a zero recoil. -/
def adversarialPhysics : PhysicsConfig :=
  { creepDurationMs := 150
    creepAngleDegrees := 2
    overshootDegrees := -10
    recoilDegrees := 0 }

/-- A step on a tick (new second observed) rebuilds the whole state from
the reading alone. -/
theorem step_tick (cfg : PhysicsConfig) (st : AnimationState) (r : ClockReading)
    (h : (r.seconds : ℤ) ≠ st.lastSystemSecond) :
    step cfg st r =
      { phase := Phase.OVERSHOOT
        lastSystemSecond := (r.seconds : ℤ)
        targetSecondBaseAngle := (r.seconds : ℚ) / 60 * 360
        currentSecondHandVisualAngle :=
          (r.seconds : ℚ) / 60 * 360 + cfg.overshootDegrees
        blurSecondHandEffect := -1 } := by
  simp [step, h]

/-- A no-tick step from OVERSHOOT recoils. -/
theorem step_noTick_overshoot (cfg : PhysicsConfig) (st : AnimationState)
    (r : ClockReading) (h : (r.seconds : ℤ) = st.lastSystemSecond)
    (hp : st.phase = Phase.OVERSHOOT) :
    step cfg st r =
      { st with
        phase := Phase.RECOIL
        currentSecondHandVisualAngle :=
          st.targetSecondBaseAngle + cfg.recoilDegrees
        blurSecondHandEffect := 1 } := by
  simp [step, h, hp]

/-- A no-tick step from RECOIL settles exactly on the base angle. -/
theorem step_noTick_recoil (cfg : PhysicsConfig) (st : AnimationState)
    (r : ClockReading) (h : (r.seconds : ℤ) = st.lastSystemSecond)
    (hp : st.phase = Phase.RECOIL) :
    step cfg st r =
      { st with
        phase := Phase.SETTLED
        currentSecondHandVisualAngle := st.targetSecondBaseAngle
        blurSecondHandEffect := -1 } := by
  simp [step, h, hp]

/-- A no-tick step from SETTLED outside the creep window stays settled. -/
theorem step_noTick_settled_stay (cfg : PhysicsConfig) (st : AnimationState)
    (r : ClockReading) (h : (r.seconds : ℤ) = st.lastSystemSecond)
    (hp : st.phase = Phase.SETTLED)
    (hw : ¬ (1000 - (r.milliseconds : ℚ) ≤ cfg.creepDurationMs ∧
      0 < 1000 - (r.milliseconds : ℚ))) :
    step cfg st r =
      { st with
        currentSecondHandVisualAngle := st.targetSecondBaseAngle
        blurSecondHandEffect := 0 } := by
  unfold step
  rw [if_neg (fun hne => hne h), hp]
  dsimp only
  rw [if_neg hw]

/-- A no-tick step from SETTLED inside the creep window enters CREEPING
and computes the creep angle in the same step. -/
theorem step_noTick_settled_enter (cfg : PhysicsConfig) (st : AnimationState)
    (r : ClockReading) (h : (r.seconds : ℤ) = st.lastSystemSecond)
    (hp : st.phase = Phase.SETTLED)
    (hlo : 0 < 1000 - (r.milliseconds : ℚ))
    (hhi : 1000 - (r.milliseconds : ℚ) ≤ cfg.creepDurationMs) :
    step cfg st r =
      { st with
        phase := Phase.CREEPING
        currentSecondHandVisualAngle :=
          st.targetSecondBaseAngle +
            max 0 (min 1 ((cfg.creepDurationMs - (1000 - (r.milliseconds : ℚ))) /
              cfg.creepDurationMs)) * cfg.creepAngleDegrees
        blurSecondHandEffect := 0 } := by
  have hw : ¬ (cfg.creepDurationMs < 1000 - (r.milliseconds : ℚ) ∨
      1000 - (r.milliseconds : ℚ) < 0) := by
    push_neg
    exact ⟨hhi, le_of_lt hlo⟩
  unfold step
  rw [if_neg (fun hne => hne h), hp]
  dsimp only
  rw [if_pos ⟨hhi, hlo⟩]
  unfold creepArm
  dsimp only
  rw [if_neg hw]

/-- A no-tick step from CREEPING with the window check failing reverts to
SETTLED at the base angle. -/
theorem step_noTick_creeping_out (cfg : PhysicsConfig) (st : AnimationState)
    (r : ClockReading) (h : (r.seconds : ℤ) = st.lastSystemSecond)
    (hp : st.phase = Phase.CREEPING)
    (hw : cfg.creepDurationMs < 1000 - (r.milliseconds : ℚ) ∨
      1000 - (r.milliseconds : ℚ) < 0) :
    step cfg st r =
      { st with
        phase := Phase.SETTLED
        currentSecondHandVisualAngle := st.targetSecondBaseAngle
        blurSecondHandEffect := 0 } := by
  unfold step
  rw [if_neg (fun hne => hne h), hp]
  dsimp only
  unfold creepArm
  dsimp only
  rw [if_pos hw]

/-- A no-tick step from CREEPING inside the window recomputes the creep
angle and stays in CREEPING. -/
theorem step_noTick_creeping_in (cfg : PhysicsConfig) (st : AnimationState)
    (r : ClockReading) (h : (r.seconds : ℤ) = st.lastSystemSecond)
    (hp : st.phase = Phase.CREEPING)
    (hw : ¬ (cfg.creepDurationMs < 1000 - (r.milliseconds : ℚ) ∨
      1000 - (r.milliseconds : ℚ) < 0)) :
    step cfg st r =
      { st with
        currentSecondHandVisualAngle :=
          st.targetSecondBaseAngle +
            max 0 (min 1 ((cfg.creepDurationMs - (1000 - (r.milliseconds : ℚ))) /
              cfg.creepDurationMs)) * cfg.creepAngleDegrees
        blurSecondHandEffect := 0 } := by
  unfold step
  rw [if_neg (fun hne => hne h), hp]
  dsimp only
  unfold creepArm
  dsimp only
  rw [if_neg hw]

/-- A no-tick step leaves the stored second and the base angle untouched
and never lands in OVERSHOOT. -/
theorem step_noTick_fields (cfg : PhysicsConfig) (st : AnimationState)
    (r : ClockReading) (h : (r.seconds : ℤ) = st.lastSystemSecond) :
    (step cfg st r).lastSystemSecond = st.lastSystemSecond ∧
    (step cfg st r).targetSecondBaseAngle = st.targetSecondBaseAngle ∧
    (step cfg st r).phase ≠ Phase.OVERSHOOT := by
  obtain ⟨ph, ls, tg, va, bl⟩ := st
  unfold step creepArm
  rw [if_neg (fun hne => hne h)]
  cases ph <;> dsimp only <;> (try split) <;> (try split) <;> simp

/-- After any step the stored second equals the seconds value of the
reading just processed. -/
theorem step_lastSystemSecond (cfg : PhysicsConfig) (st : AnimationState)
    (r : ClockReading) :
    (step cfg st r).lastSystemSecond = (r.seconds : ℤ) := by
  by_cases h : (r.seconds : ℤ) = st.lastSystemSecond
  · rw [(step_noTick_fields cfg st r h).1, h]
  · rw [step_tick cfg st r h]

/-- Processing an empty list of readings is the identity. -/
theorem run_nil (cfg : PhysicsConfig) (st : AnimationState) :
    run cfg st [] = st := rfl

/-- Processing a list of readings peels off the first one. -/
theorem run_cons (cfg : PhysicsConfig) (st : AnimationState) (r : ClockReading)
    (rs : List ClockReading) :
    run cfg st (r :: rs) = run cfg (step cfg st r) rs := rfl

/-- Any property preserved by one step is preserved by any run. -/
theorem run_preserves (cfg : PhysicsConfig) (P : AnimationState → Prop)
    (hstep : ∀ st r, P st → P (step cfg st r)) :
    ∀ (rs : List ClockReading) (st : AnimationState), P st → P (run cfg st rs) := by
  intro rs
  induction rs with
  | nil => intro st hst; exact hst
  | cons r rs ih => intro st hst; exact ih (step cfg st r) (hstep st r hst)

/-- The clamped creep progress always lies in the unit interval. -/
theorem creepProgress_bounds (x : ℚ) :
    0 ≤ max 0 (min 1 x) ∧ max 0 (min 1 x) ≤ 1 :=
  ⟨le_max_left 0 _, max_le zero_le_one (min_le_left 1 x)⟩

/-- Every state a step produces satisfies the bounded-excursion envelope,
for any configuration with the conventional signs of the spec data model
(nonnegative creep and overshoot angles, recoil no larger than the upper
envelope). -/
theorem inRange_step (cfg : PhysicsConfig)
    (hca : 0 ≤ cfg.creepAngleDegrees) (hov : 0 ≤ cfg.overshootDegrees)
    (hre : cfg.recoilDegrees ≤ max cfg.creepAngleDegrees cfg.overshootDegrees)
    (st : AnimationState) (r : ClockReading) :
    inRange cfg (step cfg st r) := by
  have hmaxl := le_max_left cfg.creepAngleDegrees cfg.overshootDegrees
  have hmaxr := le_max_right cfg.creepAngleDegrees cfg.overshootDegrees
  have hminl := min_le_left (0 : ℚ) cfg.recoilDegrees
  have hminr := min_le_right (0 : ℚ) cfg.recoilDegrees
  by_cases h : (r.seconds : ℤ) = st.lastSystemSecond
  · cases hp : st.phase with
    | OVERSHOOT =>
      rw [step_noTick_overshoot cfg st r h hp]
      exact ⟨by dsimp only; linarith, by dsimp only; linarith⟩
    | RECOIL =>
      rw [step_noTick_recoil cfg st r h hp]
      exact ⟨by dsimp only; linarith, by dsimp only; linarith⟩
    | SETTLED =>
      by_cases hw : 1000 - (r.milliseconds : ℚ) ≤ cfg.creepDurationMs ∧
          0 < 1000 - (r.milliseconds : ℚ)
      · rw [step_noTick_settled_enter cfg st r h hp hw.2 hw.1]
        obtain ⟨hp0, hp1⟩ := creepProgress_bounds
          ((cfg.creepDurationMs - (1000 - (r.milliseconds : ℚ))) / cfg.creepDurationMs)
        have hnn := mul_nonneg hp0 hca
        have hub := mul_le_of_le_one_left hca hp1
        exact ⟨by dsimp only; linarith, by dsimp only; linarith⟩
      · rw [step_noTick_settled_stay cfg st r h hp hw]
        exact ⟨by dsimp only; linarith, by dsimp only; linarith⟩
    | CREEPING =>
      by_cases hw : cfg.creepDurationMs < 1000 - (r.milliseconds : ℚ) ∨
          1000 - (r.milliseconds : ℚ) < 0
      · rw [step_noTick_creeping_out cfg st r h hp hw]
        exact ⟨by dsimp only; linarith, by dsimp only; linarith⟩
      · rw [step_noTick_creeping_in cfg st r h hp hw]
        obtain ⟨hp0, hp1⟩ := creepProgress_bounds
          ((cfg.creepDurationMs - (1000 - (r.milliseconds : ℚ))) / cfg.creepDurationMs)
        have hnn := mul_nonneg hp0 hca
        have hub := mul_le_of_le_one_left hca hp1
        exact ⟨by dsimp only; linarith, by dsimp only; linarith⟩
  · rw [step_tick cfg st r h]
    exact ⟨by dsimp only; linarith, by dsimp only; linarith⟩

/-- With a non-positive creep duration, a step never produces the CREEPING
phase from a state that is not already CREEPING. -/
theorem step_notCreeping (cfg : PhysicsConfig)
    (hcd : cfg.creepDurationMs ≤ 0) (st : AnimationState) (r : ClockReading)
    (hst : st.phase ≠ Phase.CREEPING) :
    (step cfg st r).phase ≠ Phase.CREEPING := by
  by_cases h : (r.seconds : ℤ) = st.lastSystemSecond
  · cases hp : st.phase with
    | SETTLED =>
      by_cases hw : 1000 - (r.milliseconds : ℚ) ≤ cfg.creepDurationMs ∧
          0 < 1000 - (r.milliseconds : ℚ)
      · exact absurd hw (by intro hww; linarith [hww.1, hww.2])
      · rw [step_noTick_settled_stay cfg st r h hp hw]
        simp [hp]
    | CREEPING => exact absurd hp hst
    | OVERSHOOT =>
      rw [step_noTick_overshoot cfg st r h hp]
      simp
    | RECOIL =>
      rw [step_noTick_recoil cfg st r h hp]
      simp
  · rw [step_tick cfg st r h]
    simp

/-- Any step preserves the base-angle bookkeeping invariant. -/
theorem step_baseInvariant (cfg : PhysicsConfig) (st : AnimationState)
    (r : ClockReading)
    (hst : st.targetSecondBaseAngle = (st.lastSystemSecond : ℚ) / 60 * 360) :
    (step cfg st r).targetSecondBaseAngle =
      ((step cfg st r).lastSystemSecond : ℚ) / 60 * 360 := by
  by_cases h : (r.seconds : ℤ) = st.lastSystemSecond
  · obtain ⟨h1, h2, -⟩ := step_noTick_fields cfg st r h
    rw [h1, h2, hst]
  · rw [step_tick cfg st r h]
    dsimp only
    rw [Int.cast_natCast]

/-- C1: in phase OVERSHOOT a no-tick step moves to RECOIL at
`targetBaseAngle + recoilDegrees` with blur direction +1, and the next
no-tick step moves to SETTLED exactly at `targetBaseAngle` with blur
direction -1; hence a completed OVERSHOOT-RECOIL-SETTLED sequence for
second `s` ends exactly at `secondBaseAngle s`, and with the default
physics the spec scenario (tick to second 15, then two no-tick frames)
renders 92, 88.5 and 90 degrees with blur directions -1, +1, -1. -/
theorem overshoot_recoil_settle_exact (cfg : PhysicsConfig)
    (st : AnimationState) (r1 r2 : ClockReading) (s : ℕ)
    (hph : st.phase = Phase.OVERSHOOT)
    (h1 : (r1.seconds : ℤ) = st.lastSystemSecond)
    (h2 : (r2.seconds : ℤ) = st.lastSystemSecond)
    (hbase : st.targetSecondBaseAngle = secondBaseAngle s) :
    (step cfg st r1).phase = Phase.RECOIL ∧
    (step cfg st r1).currentSecondHandVisualAngle =
      st.targetSecondBaseAngle + cfg.recoilDegrees ∧
    (step cfg st r1).blurSecondHandEffect = 1 ∧
    (step cfg (step cfg st r1) r2).phase = Phase.SETTLED ∧
    (step cfg (step cfg st r1) r2).currentSecondHandVisualAngle =
      secondBaseAngle s ∧
    (step cfg (step cfg st r1) r2).blurSecondHandEffect = -1 ∧
    (step defaultSecondHandPhysics settledAt14
      ⟨12, 0, 15, 0⟩).currentSecondHandVisualAngle = 92 ∧
    (step defaultSecondHandPhysics settledAt14
      ⟨12, 0, 15, 0⟩).blurSecondHandEffect = -1 ∧
    (step defaultSecondHandPhysics
      (step defaultSecondHandPhysics settledAt14 ⟨12, 0, 15, 0⟩)
      ⟨12, 0, 15, 200⟩).currentSecondHandVisualAngle = 177 / 2 ∧
    (step defaultSecondHandPhysics
      (step defaultSecondHandPhysics settledAt14 ⟨12, 0, 15, 0⟩)
      ⟨12, 0, 15, 200⟩).blurSecondHandEffect = 1 ∧
    (step defaultSecondHandPhysics
      (step defaultSecondHandPhysics
        (step defaultSecondHandPhysics settledAt14 ⟨12, 0, 15, 0⟩)
        ⟨12, 0, 15, 200⟩)
      ⟨12, 0, 15, 400⟩).currentSecondHandVisualAngle = 90 ∧
    (step defaultSecondHandPhysics
      (step defaultSecondHandPhysics
        (step defaultSecondHandPhysics settledAt14 ⟨12, 0, 15, 0⟩)
        ⟨12, 0, 15, 200⟩)
      ⟨12, 0, 15, 400⟩).blurSecondHandEffect = -1 := by
  have hr := step_noTick_overshoot cfg st r1 h1 hph
  have hst1p : (step cfg st r1).phase = Phase.RECOIL := by rw [hr]
  have hls1 : (step cfg st r1).lastSystemSecond = st.lastSystemSecond := by
    rw [hr]
  have h2x : (r2.seconds : ℤ) = (step cfg st r1).lastSystemSecond := by
    rw [hls1, h2]
  have hs := step_noTick_recoil cfg (step cfg st r1) r2 h2x hst1p
  have htg1 : (step cfg st r1).targetSecondBaseAngle =
      st.targetSecondBaseAngle := by
    rw [hr]
  refine ⟨hst1p, by rw [hr], by rw [hr], by rw [hs], ?_, by rw [hs],
    ?_, ?_, ?_, ?_, ?_, ?_⟩
  · rw [hs]
    dsimp only
    rw [htg1, hbase]
  all_goals norm_num [step, creepArm, settledAt14, defaultSecondHandPhysics]

/-- Witness for the OVERSHOOT-RECOIL-SETTLED theorem at a concrete
OVERSHOOT state for second 15 and two concrete no-tick readings. -/
theorem overshoot_recoil_settle_exact_witness :
    (step defaultSecondHandPhysics
      (step defaultSecondHandPhysics overshootAt15 ⟨12, 0, 15, 200⟩)
      ⟨12, 0, 15, 400⟩).currentSecondHandVisualAngle = secondBaseAngle 15 :=
  (overshoot_recoil_settle_exact defaultSecondHandPhysics overshootAt15
    ⟨12, 0, 15, 200⟩ ⟨12, 0, 15, 400⟩ 15 (by norm_num [overshootAt15])
    (by norm_num [overshootAt15]) (by norm_num [overshootAt15])
    (by norm_num [overshootAt15, secondBaseAngle])).2.2.2.2.1

/-- C2: a step lands in OVERSHOOT exactly when the seconds of the reading
differ from the stored second (the tick event); on a tick the whole state
is rebuilt from the reading alone, so exactly one tick fires no matter
how many whole seconds were skipped, jumping straight to the base angle
of the current second plus the overshoot with blur direction -1; and once
a step has processed a given seconds value, a following step with the
same seconds value never re-enters OVERSHOOT. -/
theorem tick_event_characterisation (cfg : PhysicsConfig)
    (st : AnimationState) (r : ClockReading) :
    ((step cfg st r).phase = Phase.OVERSHOOT ↔
      (r.seconds : ℤ) ≠ st.lastSystemSecond) ∧
    ((r.seconds : ℤ) ≠ st.lastSystemSecond →
      step cfg st r =
        { phase := Phase.OVERSHOOT
          lastSystemSecond := (r.seconds : ℤ)
          targetSecondBaseAngle := secondBaseAngle r.seconds
          currentSecondHandVisualAngle :=
            secondBaseAngle r.seconds + cfg.overshootDegrees
          blurSecondHandEffect := -1 }) ∧
    (∀ r2 : ClockReading, r2.seconds = r.seconds →
      (step cfg (step cfg st r) r2).phase ≠ Phase.OVERSHOOT) := by
  refine ⟨⟨?_, ?_⟩, ?_, ?_⟩
  · intro hov
    by_contra hcon
    exact (step_noTick_fields cfg st r hcon).2.2 hov
  · intro h
    rw [step_tick cfg st r h]
  · intro h
    rw [step_tick cfg st r h]
    unfold secondBaseAngle
    rfl
  · intro r2 h2
    have hnt : (r2.seconds : ℤ) = (step cfg st r).lastSystemSecond := by
      rw [step_lastSystemSecond, h2]
    exact (step_noTick_fields cfg (step cfg st r) r2 hnt).2.2

/-- Witness for the tick characterisation: ticking from second 14 to 15
enters OVERSHOOT. -/
theorem tick_event_characterisation_witness :
    (step defaultSecondHandPhysics settledAt14 ⟨12, 0, 15, 0⟩).phase =
      Phase.OVERSHOOT :=
  (tick_event_characterisation defaultSecondHandPhysics settledAt14
    ⟨12, 0, 15, 0⟩).1.mpr (by norm_num [settledAt14])

/-- C3: a no-tick step in SETTLED with the time to the next tick inside
the creep window enters CREEPING and already computes the creep angle in
that same step, `targetBaseAngle + clamp * creepAngleDegrees` with blur
direction 0; every later no-tick CREEPING step inside the window uses the
same clamped formula; with the defaults, settled at 120 degrees and a
frame at 880 ms gives 120.4 degrees. -/
theorem settled_creep_same_frame (cfg : PhysicsConfig) (st : AnimationState)
    (r : ClockReading)
    (hph : st.phase = Phase.SETTLED)
    (hnt : (r.seconds : ℤ) = st.lastSystemSecond)
    (hlo : 0 < 1000 - (r.milliseconds : ℚ))
    (hhi : 1000 - (r.milliseconds : ℚ) ≤ cfg.creepDurationMs) :
    (step cfg st r).phase = Phase.CREEPING ∧
    (step cfg st r).currentSecondHandVisualAngle =
      st.targetSecondBaseAngle +
        max 0 (min 1 ((cfg.creepDurationMs - (1000 - (r.milliseconds : ℚ))) /
          cfg.creepDurationMs)) * cfg.creepAngleDegrees ∧
    (step cfg st r).blurSecondHandEffect = 0 ∧
    (∀ (st2 : AnimationState) (r2 : ClockReading),
      st2.phase = Phase.CREEPING →
      (r2.seconds : ℤ) = st2.lastSystemSecond →
      0 ≤ 1000 - (r2.milliseconds : ℚ) →
      1000 - (r2.milliseconds : ℚ) ≤ cfg.creepDurationMs →
      (step cfg st2 r2).phase = Phase.CREEPING ∧
      (step cfg st2 r2).currentSecondHandVisualAngle =
        st2.targetSecondBaseAngle +
          max 0 (min 1 ((cfg.creepDurationMs - (1000 - (r2.milliseconds : ℚ))) /
            cfg.creepDurationMs)) * cfg.creepAngleDegrees ∧
      (step cfg st2 r2).blurSecondHandEffect = 0) ∧
    (step defaultSecondHandPhysics settledAt20 ⟨12, 0, 20, 880⟩).phase =
      Phase.CREEPING ∧
    (step defaultSecondHandPhysics settledAt20
      ⟨12, 0, 20, 880⟩).currentSecondHandVisualAngle = 602 / 5 ∧
    (step defaultSecondHandPhysics settledAt20
      ⟨12, 0, 20, 880⟩).blurSecondHandEffect = 0 := by
  have he := step_noTick_settled_enter cfg st r hnt hph hlo hhi
  refine ⟨by rw [he], by rw [he], by rw [he], ?_, ?_, ?_, ?_⟩
  · intro st2 r2 hph2 hnt2 hlo2 hhi2
    have hw : ¬ (cfg.creepDurationMs < 1000 - (r2.milliseconds : ℚ) ∨
        1000 - (r2.milliseconds : ℚ) < 0) := by
      push_neg
      exact ⟨hhi2, hlo2⟩
    have hc := step_noTick_creeping_in cfg st2 r2 hnt2 hph2 hw
    refine ⟨?_, by rw [hc], by rw [hc]⟩
    rw [hc]
    exact hph2
  all_goals norm_num [step, creepArm, settledAt20, defaultSecondHandPhysics]

/-- Witness for the same-frame SETTLED to CREEPING transition at the spec
scenario input. -/
theorem settled_creep_same_frame_witness :
    (step defaultSecondHandPhysics settledAt20 ⟨12, 0, 20, 880⟩).phase =
      Phase.CREEPING :=
  (settled_creep_same_frame defaultSecondHandPhysics settledAt20
    ⟨12, 0, 20, 880⟩ (by norm_num [settledAt20]) (by norm_num [settledAt20])
    (by norm_num) (by norm_num [defaultSecondHandPhysics])).1

/-- C4 counterexample: with overshootDegrees = -10 and recoilDegrees = 0,
signs the spec data model admits, the state reached from start() by a
single tick to second 15 has base angle 90 but visual angle 80, below
targetBaseAngle + min(0, recoilDegrees) = 90, so the bounded-excursion
claim fails as stated for such configurations. -/
theorem bounded_excursion_fails_for_negative_overshoot :
    (run adversarialPhysics (startState 0)
      [⟨12, 0, 15, 0⟩]).targetSecondBaseAngle = 90 ∧
    (run adversarialPhysics (startState 0)
      [⟨12, 0, 15, 0⟩]).currentSecondHandVisualAngle = 80 ∧
    ¬ inRange adversarialPhysics
      (run adversarialPhysics (startState 0) [⟨12, 0, 15, 0⟩]) := by
  rw [run_cons, run_nil]
  norm_num [step, creepArm, startState, adversarialPhysics, inRange]

/-- C4 (amended): in every state reachable by any sequence of steps from
the state created by start(), the visual angle stays within
[targetBaseAngle + min(0, recoilDegrees),
 targetBaseAngle + max(creepAngleDegrees, overshootDegrees)] for the base
angle held in that same state, for every configuration with the
conventional signs of the spec data model (nonnegative creep and
overshoot angles, recoil below the upper envelope — the defaults satisfy
all three); for sign choices outside these the bound fails on the first
tick. -/
theorem bounded_excursion_reachable (cfg : PhysicsConfig)
    (hca : 0 ≤ cfg.creepAngleDegrees) (hov : 0 ≤ cfg.overshootDegrees)
    (hre : cfg.recoilDegrees ≤ max cfg.creepAngleDegrees cfg.overshootDegrees)
    (s : ℕ) (rs : List ClockReading) :
    inRange cfg (run cfg (startState s) rs) := by
  cases rs with
  | nil =>
    rw [run_nil]
    unfold inRange startState
    constructor <;> dsimp only
    · have := min_le_left (0 : ℚ) cfg.recoilDegrees
      linarith
    · have := le_trans hca
        (le_max_left cfg.creepAngleDegrees cfg.overshootDegrees)
      linarith
  | cons r rs =>
    rw [run_cons]
    exact run_preserves cfg (inRange cfg)
      (fun st r2 _ => inRange_step cfg hca hov hre st r2) rs _
      (inRange_step cfg hca hov hre _ r)

/-- Witness for the bounded excursion invariant at the default physics
after one frame from a start() state. -/
theorem bounded_excursion_reachable_witness :
    inRange defaultSecondHandPhysics
      (run defaultSecondHandPhysics (startState 0) [⟨12, 0, 15, 0⟩]) :=
  bounded_excursion_reachable defaultSecondHandPhysics
    (by norm_num [defaultSecondHandPhysics])
    (by norm_num [defaultSecondHandPhysics])
    (le_trans (by norm_num [defaultSecondHandPhysics]) (le_max_left _ _))
    0 [⟨12, 0, 15, 0⟩]

/-- C5 counterexample: the state created by start() at second 30 is
SETTLED with stored second 29 but base angle 180, not the snapped angle
174 of second 29, so the claimed invariant fails in the start() state
itself (the seeding deliberately breaks it to force a first tick). -/
theorem start_state_violates_base_invariant :
    (startState 30).phase = Phase.SETTLED ∧
    (startState 30).lastSystemSecond = 29 ∧
    (startState 30).targetSecondBaseAngle = 180 ∧
    ((startState 30).lastSystemSecond : ℚ) / 60 * 360 = 174 ∧
    (startState 30).targetSecondBaseAngle ≠
      ((startState 30).lastSystemSecond : ℚ) / 60 * 360 := by
  norm_num [startState]

/-- C5 (amended): targetBaseAngle equals (lastObservedSecond / 60) * 360
in every state reached from the start() state by a first frame whose
reading differs from the seeded (currentSecond - 1) mod 60 (which the
seeding forces to behave as a tick) followed by any further frames; the
invariant is established by the first tick and preserved by every step,
but it does not hold in the start() state itself. -/
theorem base_angle_invariant_after_first_tick (cfg : PhysicsConfig) (s : ℕ)
    (r : ClockReading) (rs : List ClockReading)
    (h : (r.seconds : ℤ) ≠ (((s + 59) % 60 : ℕ) : ℤ)) :
    (run cfg (step cfg (startState s) r) rs).targetSecondBaseAngle =
      ((run cfg (step cfg (startState s) r) rs).lastSystemSecond : ℚ) /
        60 * 360 := by
  have h0 : (r.seconds : ℤ) ≠ (startState s).lastSystemSecond := h
  have hbase : (step cfg (startState s) r).targetSecondBaseAngle =
      ((step cfg (startState s) r).lastSystemSecond : ℚ) / 60 * 360 := by
    rw [step_tick cfg (startState s) r h0]
    dsimp only
    rw [Int.cast_natCast]
  exact run_preserves cfg
    (fun st => st.targetSecondBaseAngle = (st.lastSystemSecond : ℚ) / 60 * 360)
    (fun st r2 hst => step_baseInvariant cfg st r2 hst) rs _ hbase

/-- Witness for the amended base-angle invariant after a first tick. -/
theorem base_angle_invariant_after_first_tick_witness :
    (run defaultSecondHandPhysics
      (step defaultSecondHandPhysics (startState 0) ⟨12, 0, 0, 100⟩)
      []).targetSecondBaseAngle =
      ((run defaultSecondHandPhysics
        (step defaultSecondHandPhysics (startState 0) ⟨12, 0, 0, 100⟩)
        []).lastSystemSecond : ℚ) / 60 * 360 :=
  base_angle_invariant_after_first_tick defaultSecondHandPhysics 0
    ⟨12, 0, 0, 100⟩ [] (by decide)

/-- C6 counterexample: constructing the clock with a user override
creepDurationMs = 0 keeps the non-positive value (the constructor merge
performs no validation and substitutes no safe default), and behaviour
differs from a safe-default core: at 900 ms a SETTLED state stays SETTLED
under the kept 0, while under the default 150 the same frame enters
CREEPING. -/
theorem no_safe_default_substituted :
    zeroCreepPhysics.creepDurationMs = 0 ∧
    ¬ (0 < zeroCreepPhysics.creepDurationMs) ∧
    (step zeroCreepPhysics settledAt20 ⟨12, 0, 20, 900⟩).phase =
      Phase.SETTLED ∧
    (step defaultSecondHandPhysics settledAt20 ⟨12, 0, 20, 900⟩).phase =
      Phase.CREEPING := by
  refine ⟨rfl, by norm_num [zeroCreepPhysics, mergedPhysics], ?_, ?_⟩
  · norm_num [step, creepArm, zeroCreepPhysics, mergedPhysics,
      defaultSecondHandPhysics, settledAt20]
  · norm_num [step, creepArm, settledAt20, defaultSecondHandPhysics]

/-- C6 (amended): the core substitutes no safe default, but with a
non-positive creepDurationMs no state reachable from start() is ever in
phase CREEPING and no step from a reachable state reaches the creep
division, so the division by the non-positive duration is never executed
and every visual angle the step assigns comes from the well-defined
division-free branches. -/
theorem nonpositive_creep_duration_never_divides (cfg : PhysicsConfig)
    (hcd : cfg.creepDurationMs ≤ 0) (s : ℕ) (rs : List ClockReading) :
    (run cfg (startState s) rs).phase ≠ Phase.CREEPING ∧
    ∀ r : ClockReading,
      ¬ creepDivisionReached cfg (run cfg (startState s) rs) r := by
  have hnc : (run cfg (startState s) rs).phase ≠ Phase.CREEPING := by
    refine run_preserves cfg (fun st => st.phase ≠ Phase.CREEPING)
      (fun st r2 hst => step_notCreeping cfg hcd st r2 hst) rs _ ?_
    simp [startState]
  refine ⟨hnc, ?_⟩
  intro r hdiv
  obtain ⟨-, hcase, -⟩ := hdiv
  cases hcase with
  | inl hc => exact hnc hc
  | inr hc => linarith [hc.2.1, hc.2.2]

/-- Witness for the amended non-positive creep duration theorem with the
merged zero-duration configuration. -/
theorem nonpositive_creep_duration_never_divides_witness :
    (run zeroCreepPhysics (startState 0) [⟨12, 0, 0, 900⟩]).phase ≠
      Phase.CREEPING :=
  (nonpositive_creep_duration_never_divides zeroCreepPhysics
    (by norm_num [zeroCreepPhysics, mergedPhysics]) 0 [⟨12, 0, 0, 900⟩]).1

/-- C7: a no-tick CREEPING step whose milliseconds-until-next-tick is
negative or exceeds creepDurationMs (a backward clock adjustment)
immediately returns to SETTLED at the unchanged base angle with blur
direction 0, discarding the in-progress creep. -/
theorem creeping_out_of_window_resets (cfg : PhysicsConfig)
    (st : AnimationState) (r : ClockReading)
    (hph : st.phase = Phase.CREEPING)
    (hnt : (r.seconds : ℤ) = st.lastSystemSecond)
    (hout : 1000 - (r.milliseconds : ℚ) < 0 ∨
      cfg.creepDurationMs < 1000 - (r.milliseconds : ℚ)) :
    (step cfg st r).phase = Phase.SETTLED ∧
    (step cfg st r).currentSecondHandVisualAngle =
      st.targetSecondBaseAngle ∧
    (step cfg st r).targetSecondBaseAngle = st.targetSecondBaseAngle ∧
    (step cfg st r).blurSecondHandEffect = 0 := by
  have hc := step_noTick_creeping_out cfg st r hnt hph hout.symm
  exact ⟨by rw [hc], by rw [hc], by rw [hc], by rw [hc]⟩

/-- Witness for the out-of-window CREEPING reset at a concrete mid-creep
state with a reading far outside the window. -/
theorem creeping_out_of_window_resets_witness :
    (step defaultSecondHandPhysics creepingAt10 ⟨12, 0, 10, 100⟩).phase =
      Phase.SETTLED ∧
    (step defaultSecondHandPhysics creepingAt10
      ⟨12, 0, 10, 100⟩).currentSecondHandVisualAngle =
      creepingAt10.targetSecondBaseAngle :=
  ⟨(creeping_out_of_window_resets defaultSecondHandPhysics creepingAt10
      ⟨12, 0, 10, 100⟩ (by norm_num [creepingAt10])
      (by norm_num [creepingAt10])
      (Or.inr (by norm_num [defaultSecondHandPhysics]))).1,
   (creeping_out_of_window_resets defaultSecondHandPhysics creepingAt10
      ⟨12, 0, 10, 100⟩ (by norm_num [creepingAt10])
      (by norm_num [creepingAt10])
      (Or.inr (by norm_num [defaultSecondHandPhysics]))).2.1⟩

/-- C8: a frame callback arriving sooner than the minimum inter-invocation
interval (the hard-coded 50 Hz throttle, 20 ms) after the last processed
frame leaves the loop state exactly as it was: no physics field and not
the last-processed timestamp is modified. -/
theorem throttled_frame_is_passthrough (cfg : PhysicsConfig) (s : LoopState)
    (timestamp : ℚ) (r : ClockReading)
    (h : timestamp - s.lastTimestamp < 1000 / maxRefreshRateHz) :
    animationLoop cfg s timestamp r = s ∧
    (animationLoop cfg s timestamp r).anim.phase = s.anim.phase ∧
    (animationLoop cfg s timestamp r).anim.lastSystemSecond =
      s.anim.lastSystemSecond ∧
    (animationLoop cfg s timestamp r).anim.targetSecondBaseAngle =
      s.anim.targetSecondBaseAngle ∧
    (animationLoop cfg s timestamp r).anim.currentSecondHandVisualAngle =
      s.anim.currentSecondHandVisualAngle ∧
    (animationLoop cfg s timestamp r).anim.blurSecondHandEffect =
      s.anim.blurSecondHandEffect ∧
    (animationLoop cfg s timestamp r).lastTimestamp = s.lastTimestamp := by
  have he : animationLoop cfg s timestamp r = s := by
    unfold animationLoop
    rw [if_pos h]
  exact ⟨he, by rw [he], by rw [he], by rw [he], by rw [he], by rw [he],
    by rw [he]⟩

/-- Witness for the throttle passthrough: a callback 10 ms after the last
processed frame changes nothing. -/
theorem throttled_frame_is_passthrough_witness :
    animationLoop defaultSecondHandPhysics exLoopState 1010
      ⟨12, 0, 20, 500⟩ = exLoopState :=
  (throttled_frame_is_passthrough defaultSecondHandPhysics exLoopState 1010
    ⟨12, 0, 20, 500⟩ (by norm_num [exLoopState, maxRefreshRateHz])).1

/-- C9 counterexample: at minutes 30, seconds 0 the minute formula printed
by the spec, (m + s/60)/60*6*10, yields 30, while the source computes
(m + s/60)/60*360 = 180, so the spec formula is not equivalent to the
stated /60*360 form and does not match the source. -/
theorem minute_angle_spec_formula_mismatch :
    minuteAngleSpecFormula 30 0 = 30 ∧
    minuteAngle 30 0 = 180 ∧
    minuteAngleSpecFormula 30 0 ≠ minuteAngle 30 0 := by
  norm_num [minuteAngleSpecFormula, minuteAngle]

/-- C9 (amended): the source computes
hourAngle = ((hours mod 12) + minutes/60)/12*360,
minuteAngle = (minutes + seconds/60)/60*360 (equivalently
minutes*6 + seconds/10; the spec misprint /60*6*10 is not equivalent) and
secondBaseAngle = seconds/60*360, and for in-range readings all three
results lie in [0, 360). -/
theorem angle_calculator_formulas_and_ranges (hours minutes seconds : ℕ)
    (_hh : hours ≤ 23) (hm : minutes ≤ 59) (hs : seconds ≤ 59) :
    hourAngle hours minutes =
      (((hours % 12 : ℕ) : ℚ) + (minutes : ℚ) / 60) / 12 * 360 ∧
    minuteAngle minutes seconds =
      ((minutes : ℚ) + (seconds : ℚ) / 60) / 60 * 360 ∧
    minuteAngle minutes seconds = (minutes : ℚ) * 6 + (seconds : ℚ) / 10 ∧
    secondBaseAngle seconds = (seconds : ℚ) / 60 * 360 ∧
    0 ≤ hourAngle hours minutes ∧ hourAngle hours minutes < 360 ∧
    0 ≤ minuteAngle minutes seconds ∧ minuteAngle minutes seconds < 360 ∧
    0 ≤ secondBaseAngle seconds ∧ secondBaseAngle seconds < 360 := by
  have hq : ((hours % 12 : ℕ) : ℚ) ≤ 11 := by
    have hlt : hours % 12 < 12 := Nat.mod_lt hours (by norm_num)
    exact_mod_cast Nat.le_of_lt_succ hlt
  have hq0 : (0 : ℚ) ≤ ((hours % 12 : ℕ) : ℚ) := Nat.cast_nonneg _
  have hmq : (minutes : ℚ) ≤ 59 := by exact_mod_cast hm
  have hm0 : (0 : ℚ) ≤ (minutes : ℚ) := Nat.cast_nonneg _
  have hsq : (seconds : ℚ) ≤ 59 := by exact_mod_cast hs
  have hs0 : (0 : ℚ) ≤ (seconds : ℚ) := Nat.cast_nonneg _
  have e1 : hourAngle hours minutes =
      ((hours % 12 : ℕ) : ℚ) * 30 + (minutes : ℚ) * (1 / 2) := by
    unfold hourAngle
    ring
  have e2 : minuteAngle minutes seconds =
      (minutes : ℚ) * 6 + (seconds : ℚ) * (1 / 10) := by
    unfold minuteAngle
    ring
  have e3 : secondBaseAngle seconds = (seconds : ℚ) * 6 := by
    unfold secondBaseAngle
    ring
  refine ⟨rfl, rfl, by rw [e2]; ring, rfl, ?_, ?_, ?_, ?_, ?_, ?_⟩
  · rw [e1]; linarith
  · rw [e1]; linarith
  · rw [e2]; linarith
  · rw [e2]; linarith
  · rw [e3]; linarith
  · rw [e3]; linarith

/-- Witness for the angle calculator theorem at the extreme in-range
reading 23:59:59. -/
theorem angle_calculator_formulas_and_ranges_witness :
    hourAngle 23 59 < 360 :=
  (angle_calculator_formulas_and_ranges 23 59 59 (by norm_num) (by norm_num)
    (by norm_num)).2.2.2.2.2.1

/-- C10: a no-tick step in any of the four phases leaves the stored second
and the base angle unchanged; only a tick event reassigns them (the
defensive default arm of the source switch is unreachable for the
four-valued phase enum). -/
theorem no_tick_preserves_second_and_base (cfg : PhysicsConfig)
    (st : AnimationState) (r : ClockReading)
    (_hph : st.phase = Phase.OVERSHOOT ∨ st.phase = Phase.RECOIL ∨
      st.phase = Phase.SETTLED ∨ st.phase = Phase.CREEPING)
    (hnt : (r.seconds : ℤ) = st.lastSystemSecond) :
    (step cfg st r).lastSystemSecond = st.lastSystemSecond ∧
    (step cfg st r).targetSecondBaseAngle = st.targetSecondBaseAngle :=
  ⟨(step_noTick_fields cfg st r hnt).1, (step_noTick_fields cfg st r hnt).2.1⟩

/-- Witness for the no-tick preservation at a settled state. -/
theorem no_tick_preserves_second_and_base_witness :
    (step defaultSecondHandPhysics settledAt20
      ⟨12, 0, 20, 500⟩).lastSystemSecond = settledAt20.lastSystemSecond ∧
    (step defaultSecondHandPhysics settledAt20
      ⟨12, 0, 20, 500⟩).targetSecondBaseAngle =
      settledAt20.targetSecondBaseAngle :=
  no_tick_preserves_second_and_base defaultSecondHandPhysics settledAt20
    ⟨12, 0, 20, 500⟩ (Or.inr (Or.inr (Or.inl rfl)))
    (by norm_num [settledAt20])

end Clock
